import Mathlib

/-!
Shallow embedding of the session / identity / transport coordination layer and
the operation-dispatch engine of the Airtable MCP gateway (`src/server/server.ts`).

Conventions of the embedding:
* JavaScript `Map` objects are association lists `List (String × α)`; `Map.get`
  is `List.lookup`, `Map.set` prepends after erasing the key, `Map.delete`
  filters the key out.
* Times are `Int` milliseconds since the epoch (the value of `Date.now()`).
* The external network collaborators (`fetch` against the OAuth token endpoint
  and against the Airtable data API) are passed in as function parameters; a
  `none` / error value models a non-success HTTP response, exactly the case in
  which the source throws.
* Thrown JavaScript exceptions are modelled with `Except ServerError`.
* The file system is an association list from paths to file contents.
-/

namespace AirtableMcp

/-- Milliseconds since the Unix epoch, the unit of `Date.now()`. -/
abbrev TimeMs := Int

/-- `Map.get` on the association-list model of a JavaScript `Map`. -/
def storeGet (m : List (String × α)) (k : String) : Option α :=
  m.lookup k

/-- `Map.delete` on the association-list model of a JavaScript `Map`. -/
def storeErase (m : List (String × α)) (k : String) : List (String × α) :=
  m.filter (fun p => p.1 != k)

/-- `Map.set` on the association-list model of a JavaScript `Map`. -/
def storeSet (m : List (String × α)) (k : String) (v : α) : List (String × α) :=
  (k, v) :: storeErase m k

theorem storeGet_storeSet_self (m : List (String × α)) (k : String) (v : α) :
    storeGet (storeSet m k v) k = some v := by
  simp [storeGet, storeSet, List.lookup]

theorem storeGet_storeErase_self (m : List (String × α)) (k : String) :
    storeGet (storeErase m k) k = none := by
  simp only [storeGet, storeErase]
  induction m with
  | nil => rfl
  | cons hd tl ih =>
      rcases hd with ⟨a, b⟩
      by_cases h : a = k
      · rw [List.filter_cons_of_neg (by simp [h])]
        exact ih
      · rw [List.filter_cons_of_pos (by simpa [bne_iff_ne] using h),
          List.lookup_cons]
        have hk : (k == a) = false := beq_eq_false_iff_ne.mpr (Ne.symm h)
        rw [hk]
        exact ih

theorem storeGet_storeErase_ne (m : List (String × α)) (k k' : String) (h : k' ≠ k) :
    storeGet (storeErase m k) k' = storeGet m k' := by
  simp only [storeGet, storeErase]
  induction m with
  | nil => rfl
  | cons hd tl ih =>
      rcases hd with ⟨a, b⟩
      by_cases hh : a = k
      · subst hh
        rw [List.filter_cons_of_neg (by simp), List.lookup_cons,
          beq_eq_false_iff_ne.mpr h]
        exact ih
      · rw [List.filter_cons_of_pos (by simpa [bne_iff_ne] using hh),
          List.lookup_cons, List.lookup_cons]
        cases hc : (k' == a) with
        | true => rfl
        | false => exact ih

theorem storeGet_storeSet_ne (m : List (String × α)) (k k' : String) (v : α) (h : k' ≠ k) :
    storeGet (storeSet m k v) k' = storeGet m k' := by
  show List.lookup k' ((k, v) :: storeErase m k) = storeGet m k'
  rw [List.lookup_cons, beq_eq_false_iff_ne.mpr h]
  exact storeGet_storeErase_ne m k k' h

/-- One per-session OAuth credential record, the value type of `authSessions`
(`{ accessToken; refreshToken; expiresAt }`). -/
structure TokenState where
  accessToken : String
  refreshToken : String
  expiresAt : TimeMs
deriving Repr, DecidableEq

/-- The `authSessions` map: logical session id to stored OAuth credential. -/
abbrev TokenStore := List (String × TokenState)

/-- One in-flight OAuth redirect, the value type of `pendingAuthStates`
(`{ sessionId; createdAt }`). -/
structure PendingAuth where
  sessionId : String
  createdAt : TimeMs
deriving Repr, DecidableEq

/-- The `pendingAuthStates` map: CSRF `state` nonce to its issuing session. -/
abbrev PendingStore := List (String × PendingAuth)

/-- The body of a successful token-endpoint refresh response
(`{ access_token; expires_in }`, `expires_in` in seconds). -/
structure RefreshData where
  access_token : String
  expires_in : Int
deriving Repr, DecidableEq

/-- The body of a successful authorization-code exchange response
(`{ access_token; refresh_token; expires_in }`). -/
structure ExchangeData where
  access_token : String
  refresh_token : String
  expires_in : Int
deriving Repr, DecidableEq

/-- The external OAuth token endpoint, seen through `refreshAccessToken`:
given the `refresh_token` form field, `some` successful response body or
`none` when the endpoint answers with a non-ok status (the source then
throws `Failed to refresh token: ...`). -/
abbrev RefreshEndpoint := String → Option RefreshData

/-- The external OAuth token endpoint, seen through `exchangeCodeForToken`:
given the `code` form field, `some` successful response body or `none` for a
non-ok status (the source then throws `Failed to exchange code for token`). -/
abbrev ExchangeEndpoint := String → Option ExchangeData

/-- Errors thrown inside the request handlers (JavaScript `throw new Error`). -/
inductive ServerError where
  /-- `"Not authenticated. Please authenticate with Airtable first."` -/
  | notAuthenticated
  /-- `"Failed to refresh token: ..."`; carries the refresh token that was sent. -/
  | refreshFailed (refreshToken : String)
  /-- `"Airtable API error: ${status} ${body}"` from `airtableApiRequest`. -/
  | apiError (status : Nat) (body : String)
  /-- `"Unknown tool: ${toolName}"` from the dispatch `default` case. -/
  | unknownTool (name : String)
  /-- A JavaScript `TypeError` (e.g. calling `.map` on a non-array). -/
  | typeError (what : String)
deriving Repr, DecidableEq

/-- The `message` of the thrown `Error`, as the `catch` blocks observe it. -/
def ServerError.message : ServerError → String
  | .notAuthenticated => "Not authenticated. Please authenticate with Airtable first."
  | .refreshFailed _ => "Failed to refresh token"
  | .apiError status body => "Airtable API error: " ++ toString status ++ " " ++ body
  | .unknownTool name => "Unknown tool: " ++ name
  | .typeError what => what ++ " is not a function"

/-- `getValidAccessToken(sessionId)` (server.ts:236-253).  Looks the session up
in `authSessions`; absent → throw.  If `Date.now() >= expiresAt - 5*60*1000`
it calls `refreshAccessToken(session.refreshToken)` once, overwrites the
access token and expiry with the refreshed values (keeping the stored refresh
token) and re-`set`s the record; otherwise it returns the stored access token
untouched.  The second component counts the refresh calls performed. -/
def getValidAccessToken (endpoint : RefreshEndpoint) (now : TimeMs)
    (store : TokenStore) (sessionId : String) :
    Except ServerError (String × TokenStore) × Nat :=
  match storeGet store sessionId with
  | none => (.error .notAuthenticated, 0)
  | some session =>
      if now ≥ session.expiresAt - 5 * 60 * 1000 then
        match endpoint session.refreshToken with
        | none => (.error (.refreshFailed session.refreshToken), 1)
        | some tokenData =>
            let updated : TokenState :=
              { session with
                  accessToken := tokenData.access_token
                  expiresAt := now + tokenData.expires_in * 1000 }
            (.ok (updated.accessToken, storeSet store sessionId updated), 1)
      else
        (.ok (session.accessToken, store), 0)

/-- OAuth process configuration (`AIRTABLE_CLIENT_ID` etc.). -/
structure OAuthConfig where
  clientId : String
  clientSecret : String
  redirectUri : String
deriving Repr, DecidableEq

/-- Hex digit of the low nibble, upper case (as `URLSearchParams` percent-encodes). -/
def hexDigit (n : Nat) : Char :=
  if n < 10 then Char.ofNat (48 + n) else Char.ofNat (55 + n)

/-- `application/x-www-form-urlencoded` serialization of one component, the
encoding `URLSearchParams.toString()` applies: ASCII alphanumerics and
`*`, `-`, `.`, `_` are kept, space becomes `+`, every other UTF-8 byte
becomes `%XX`. -/
def formEncode (s : String) : String :=
  String.mk <| (s.toUTF8.toList.map (fun b =>
    let n := b.toNat
    if (48 ≤ n ∧ n ≤ 57) ∨ (65 ≤ n ∧ n ≤ 90) ∨ (97 ≤ n ∧ n ≤ 122)
        ∨ n = 42 ∨ n = 45 ∨ n = 46 ∨ n = 95 then
      [Char.ofNat n]
    else if n = 32 then
      ['+']
    else
      ['%', hexDigit (n / 16), hexDigit (n % 16)])).flatten

/-- `new URLSearchParams(pairs).toString()`: `k=v` joined with `&`, both sides
form-encoded, in insertion order. -/
def renderQuery (pairs : List (String × String)) : String :=
  String.intercalate "&" (pairs.map (fun p => formEncode p.1 ++ "=" ++ formEncode p.2))

/-- The scope list requested by `generateAuthUrl`. -/
def authScopes : List String :=
  ["data.records:read", "data.records:write", "data.recordComments:read",
   "data.recordComments:write", "schema.bases:read", "webhook:manage"]

/-- `generateAuthUrl(state)` (server.ts:163-182). -/
def generateAuthUrl (cfg : OAuthConfig) (state : String) : String :=
  "https://airtable.com/oauth2/v1/authorize?" ++
    renderQuery
      [("client_id", cfg.clientId),
       ("redirect_uri", cfg.redirectUri),
       ("response_type", "code"),
       ("state", state),
       ("scope", String.intercalate " " authScopes)]

/-- JavaScript `String.prototype.startsWith`, over character sequences
(extensionally the same test as `String.startsWith`, stated in a form the
kernel can evaluate). -/
def jsStartsWith (s pre : String) : Bool :=
  pre.data.isPrefixOf s.data

/-- JavaScript `String.prototype.substring(n)`, over the character sequence. -/
def jsSubstringFrom (s : String) (n : Nat) : String :=
  String.mk (s.data.drop n)

/-- JavaScript truthiness of an optional string (`null` and `""` are falsy),
used for `if (error)`, `if (!code || !state)`, `if (!accessToken)`,
`storedAuthHeader && ...`. -/
def jsTruthy : Option String → Bool
  | none => false
  | some s => s != ""

/-- The process-wide mutable maps the CallToolRequest authorization gate
reads and writes: `authSessions`, `sessionAuthHeaders`, `pendingAuthStates`. -/
structure GateState where
  authSessions : TokenStore
  sessionAuthHeaders : List (String × String)
  pendingAuthStates : PendingStore
deriving Repr, DecidableEq

/-- Terminal outcome of the authorization gate at the top of the
CallToolRequest handler. -/
inductive GateResult where
  /-- A usable (truthy) access token was resolved; dispatch proceeds. -/
  | token (accessToken : String)
  /-- No credential: the handler returns the auth-URL guidance envelope. -/
  | authPrompt (text : String)
  /-- `getValidAccessToken` threw; the exception escapes the handler. -/
  | threw (e : ServerError)
deriving Repr, DecidableEq

/-- Result of the authorization gate together with the updated stores and
the number of refresh calls made against the token endpoint. -/
structure GateOutcome where
  result : GateResult
  authSessions : TokenStore
  pendingAuthStates : PendingStore
  refreshCalls : Nat
deriving Repr, DecidableEq

/-- The authorization gate of the CallToolRequest handler
(server.ts:1269-1302).  If `authSessions` has the session, the token comes
from `getValidAccessToken` (whose exceptions propagate).  Otherwise, a stored
`Authorization` header starting with `"Bearer "` is adopted into
`authSessions` with an empty refresh token and an assumed expiry one hour
from now.  If the resulting `accessToken` is still null-or-empty, a fresh
`state` nonce is recorded in `pendingAuthStates` and a *successful* envelope
carrying the authorization URL is produced; nothing is thrown on missing
auth.  `nonce` stands for the `crypto.randomBytes(16).toString("hex")` value. -/
def authGate (endpoint : RefreshEndpoint) (cfg : OAuthConfig) (now : TimeMs)
    (nonce : String) (st : GateState) (sessionId : String) : GateOutcome :=
  let promptText := fun (s : String) =>
    "Please authenticate with Airtable to use this feature. Visit: " ++
      generateAuthUrl cfg s
  let prompt := fun (auth : TokenStore) (calls : Nat) =>
    { result := .authPrompt (promptText nonce)
      authSessions := auth
      pendingAuthStates :=
        storeSet st.pendingAuthStates nonce { sessionId := sessionId, createdAt := now }
      refreshCalls := calls : GateOutcome }
  match storeGet st.authSessions sessionId with
  | some _ =>
      match getValidAccessToken endpoint now st.authSessions sessionId with
      | (.ok (tok, auth'), calls) =>
          if tok == "" then prompt auth' calls
          else
            { result := .token tok
              authSessions := auth'
              pendingAuthStates := st.pendingAuthStates
              refreshCalls := calls }
      | (.error e, calls) =>
          { result := .threw e
            authSessions := st.authSessions
            pendingAuthStates := st.pendingAuthStates
            refreshCalls := calls }
  | none =>
      match storeGet st.sessionAuthHeaders sessionId with
      | some header =>
          if header != "" && jsStartsWith header "Bearer " then
            let tok := jsSubstringFrom header 7
            let auth' := storeSet st.authSessions sessionId
              { accessToken := tok, refreshToken := "", expiresAt := now + 3600000 }
            if tok == "" then prompt auth' 0
            else
              { result := .token tok
                authSessions := auth'
                pendingAuthStates := st.pendingAuthStates
                refreshCalls := 0 }
          else prompt st.authSessions 0
      | none => prompt st.authSessions 0

/-- Outcome of `handleAuthCallback`, by terminal branch. -/
inductive CallbackOutcome where
  /-- `error` query parameter present and truthy: 400 failure page. -/
  | errorPage (e : String)
  /-- `code` or `state` missing (or empty): plain 400. -/
  | missingParams
  /-- `state` not found in `pendingAuthStates`: 400 "Invalid or expired". -/
  | invalidState
  /-- Code exchanged and the session token installed: 200 success page. -/
  | success (sessionId : String)
  /-- The code exchange against the token endpoint failed: 500 error page. -/
  | exchangeFailed
deriving Repr, DecidableEq

/-- `handleAuthCallback` (server.ts:2146-2218) without the HTML bodies: the
`state` nonce is looked up in `pendingAuthStates` *before* the opportunistic
sweep of entries older than ten minutes; the found binding's own age is never
compared against the TTL.  On a successful exchange, the token state is
installed for the owning session and the nonce deleted.  Returns the outcome
with the updated `pendingAuthStates` and `authSessions`. -/
def handleAuthCallback (exchange : ExchangeEndpoint) (now : TimeMs)
    (errorParam code state : Option String)
    (pending : PendingStore) (auth : TokenStore) :
    CallbackOutcome × PendingStore × TokenStore :=
  if jsTruthy errorParam then
    (.errorPage (errorParam.getD ""), pending, auth)
  else if ¬ jsTruthy code ∨ ¬ jsTruthy state then
    (.missingParams, pending, auth)
  else
    let stateVal := state.getD ""
    match storeGet pending stateVal with
    | none => (.invalidState, pending, auth)
    | some pendingAuth =>
        let swept := pending.filter (fun p => ¬ (now - p.2.createdAt > 10 * 60 * 1000))
        match exchange (code.getD "") with
        | some tokenData =>
            (.success pendingAuth.sessionId,
             storeErase swept stateVal,
             storeSet auth pendingAuth.sessionId
               { accessToken := tokenData.access_token
                 refreshToken := tokenData.refresh_token
                 expiresAt := now + tokenData.expires_in * 1000 })
        | none => (.exchangeFailed, swept, auth)

/-- Minimal JSON value model for API request and response bodies. -/
inductive Json where
  | null
  | bool (b : Bool)
  | num (n : Int)
  | str (s : String)
  | arr (xs : List Json)
  | obj (fields : List (String × Json))
deriving Repr

/-- Property access `j.k` on a JSON value: `some` the property's value when
`j` is an object that has it, `none` for JavaScript `undefined`. -/
def Json.getField : Json → String → Option Json
  | .obj fs, k => fs.lookup k
  | _, _ => none

/-- JavaScript truthiness of a JSON value. -/
def Json.truthy : Json → Bool
  | .null => false
  | .bool b => b
  | .num n => n != 0
  | .str s => s != ""
  | .arr _ => true
  | .obj _ => true

/-- `x || d` where `x` may be `undefined` (`none`). -/
def jsOr (x : Option Json) (d : Json) : Json :=
  match x with
  | some v => if v.truthy then v else d
  | none => d

/-- `typeof` of a JSON value (`typeof null` is `"object"`). -/
def jsTypeof : Json → String
  | .null => "object"
  | .bool _ => "boolean"
  | .num _ => "number"
  | .str _ => "string"
  | .arr _ => "object"
  | .obj _ => "object"

/-- `Array.isArray`. -/
def jsIsArray : Json → Bool
  | .arr _ => true
  | _ => false

/-- `x.length`: array or string length, an object's own `length` property,
`undefined` otherwise. -/
def jsLengthOf : Json → Option Json
  | .arr xs => some (.num xs.length)
  | .str s => some (.num s.length)
  | .obj fs => fs.lookup "length"
  | _ => none

/-- String coercion of a possibly-`undefined` value inside a template
literal.  Array coercion (a comma join of the elements) is flattened to the
empty string, which the modelled inputs never exercise. -/
def jsToStr : Option Json → String
  | none => "undefined"
  | some .null => "null"
  | some (.bool b) => if b then "true" else "false"
  | some (.num n) => toString n
  | some (.str s) => s
  | some (.arr _) => ""
  | some (.obj _) => "[object Object]"

/-- `data.k?.length || 0` rendered into a template literal. -/
def lengthDisplay (data : Json) (k : String) : String :=
  let len : Option Json :=
    match data.getField k with
    | some .null => none
    | some v => jsLengthOf v
    | none => none
  match len with
  | some v => if v.truthy then jsToStr (some v) else "0"
  | none => "0"

/-- `searchResult.records && searchResult.records.length > 0`. -/
def jsLenGtZero (x : Option Json) : Bool :=
  match x with
  | some v =>
      v.truthy &&
        (match jsLengthOf v with
         | some (.num n) => decide (0 < n)
         | _ => false)
  | none => false

/-- Outcome of one `fetch` against the Airtable data API: a parsed JSON body
on success, a bare `204 No Content`, or a non-success status and body text. -/
inductive ApiOutcome where
  | ok (body : Json)
  | noContent
  | err (status : Nat) (body : String)

/-- The external Airtable data API: access token, endpoint, HTTP method,
optional JSON request body. -/
abbrev Backend := String → String → String → Option Json → ApiOutcome

/-- `airtableApiRequest` (server.ts:255-283) as every dispatch case invokes
it, with the gate's access token passed as the override: non-success →
throw `Airtable API error: ${status} ${body}`; `204` → `null`. -/
def airtableApiRequest (backend : Backend) (accessToken endpoint method : String)
    (body : Option Json) : Except ServerError Json :=
  match backend accessToken endpoint method body with
  | .ok v => .ok v
  | .noContent => .ok .null
  | .err status bodyText => .error (.apiError status bodyText)

/-- One entry of the optional `sort` argument (`{ field, direction? }`). -/
structure SortSpec where
  field : String
  direction : Option String := none
deriving Repr

/-- The validated argument payload of a tool call: the union of the fields
the Zod parsers extract.  Schema validation itself is not modelled — the
record holds the post-`parse` values with absent optional fields as `none`.
`fields` is the record-fields object, `fieldsList` the `fields[]` projection
list, `offsetArg` the `offset` page cursor. -/
structure ToolArgs where
  baseId : String := ""
  tableId : String := ""
  recordId : String := ""
  viewId : String := ""
  fieldName : String := ""
  commentText : String := ""
  url : String := ""
  filename : Option String := none
  uniqueField : String := ""
  uniqueValue : String := ""
  typecast : Option Bool := none
  fields : List (String × Json) := []
  records : Json := .arr []
  recordIds : List String := []
  view : Option String := none
  filterByFormula : Option String := none
  maxRecords : Option Int := none
  pageSize : Option Int := none
  offsetArg : Option String := none
  sort : Option (List SortSpec) := none
  fieldsList : Option (List String) := none
deriving Repr

/-- JSON string-literal escaping as `JSON.stringify` performs it on the
modelled inputs (quotation mark and backslash). -/
def jsonEscape (s : String) : String :=
  String.mk ((s.data.map (fun c =>
    if c = Char.ofNat 34 then [Char.ofNat 92, Char.ofNat 34]
    else if c = Char.ofNat 92 then [Char.ofNat 92, Char.ofNat 92]
    else [c])).flatten)

/-- `JSON.stringify({ field: s.field, direction: s.direction || "asc" })`. -/
def sortParamJson (s : SortSpec) : String :=
  let dir := match s.direction with
    | some d => if d = "" then "asc" else d
    | none => "asc"
  "\x7b\"field\":\"" ++ jsonEscape s.field ++ "\",\"direction\":\"" ++
    jsonEscape dir ++ "\"\x7d"

/-- `if (args.k) params.append(name, args.k)` for a string argument. -/
def optStrParam (k : String) : Option String → List (String × String)
  | some v => if v = "" then [] else [(k, v)]
  | none => []

/-- `if (args.k) params.append(name, args.k.toString())` for a number. -/
def optNumParam (k : String) : Option Int → List (String × String)
  | some n => if n = 0 then [] else [(k, toString n)]
  | none => []

/-- `if (args.sort) args.sort.forEach(s => params.append("sort[]", ...))`. -/
def sortParams : Option (List SortSpec) → List (String × String)
  | some ss => ss.map (fun s => ("sort[]", sortParamJson s))
  | none => []

/-- `if (args.fields) args.fields.forEach(f => params.append("fields[]", f))`. -/
def fieldsListParams : Option (List String) → List (String × String)
  | some fs => fs.map (fun f => ("fields[]", f))
  | none => []

/-- The result envelope of one tool call: `content[0].text`, the optional
`structuredContent` payload, and the id of the widget whose `_meta` is
attached, when any. -/
structure Envelope where
  text : String
  structuredContent : Option Json := none
  widgetId : Option String := none
deriving Repr

/-- The names of the 22 tools of the fixed catalog (`tools`,
server.ts:960-1186), in declaration order. -/
def toolNames : List String :=
  ["list_bases", "get_base_schema", "list_tables", "list_fields", "list_views",
   "list_records", "get_record", "create_record", "update_record",
   "replace_record", "delete_record", "batch_create_records",
   "batch_update_records", "batch_delete_records", "query_records",
   "get_view_records", "upload_attachment", "list_attachments", "get_comments",
   "create_comment", "upsert_record", "validate_schema_compatibility"]

/-- `{id: t.id, name: t.name}` over `data.tables?.map(...)`, `undefined`
property reads modelled as `null`. -/
def tableSummary (t : Json) : Json :=
  .obj [("id", (t.getField "id").getD .null), ("name", (t.getField "name").getD .null)]

/-- `data.tables?.map(t => ({id, name})) || []`: optional chaining passes
`undefined`/`null` through to the `|| []` default; calling `.map` on any
other non-array throws. -/
def tablesSummaryList (data : Json) : Except ServerError Json :=
  match data.getField "tables" with
  | none => .ok (.arr [])
  | some .null => .ok (.arr [])
  | some (.arr xs) => .ok (.arr (xs.map tableSummary))
  | some _ => .error (.typeError "data.tables.map")

/-- `record.fields[args.fieldName]`: reading `.fields` of the response and
indexing it.  Indexing `undefined`/`null` throws a `TypeError`; indexing any
other non-object yields `undefined`. -/
def recordFieldsIndex (record : Json) (k : String) : Except ServerError (Option Json) :=
  match record with
  | .obj fs =>
      match fs.lookup "fields" with
      | some (.obj inner) => .ok (inner.lookup k)
      | some .null => .error (.typeError "record.fields index")
      | some _ => .ok none
      | none => .error (.typeError "record.fields index")
  | _ => .error (.typeError "record.fields index")

/-- `[...((record.fields[f] as any[]) || []), x]`: a falsy value spreads to
nothing, an array to its elements, a string to its characters, and any other
truthy value throws (not iterable). -/
def spreadCurrent : Option Json → Except ServerError (List Json)
  | some (.arr xs) => .ok xs
  | some (.str s) =>
      if s = "" then .ok []
      else .ok (s.data.map (fun c => Json.str (String.singleton c)))
  | some (.num n) => if n = 0 then .ok [] else .error (.typeError "spread")
  | some (.bool b) => if b then .error (.typeError "spread") else .ok []
  | some (.obj _) => .error (.typeError "spread")
  | some .null => .ok []
  | none => .ok []

/-- `args.filename || args.url.split("/").pop() || "attachment"`. -/
def attachmentFilename (a : ToolArgs) : String :=
  let fromUrl :=
    match (a.url.splitOn "/").getLast? with
    | some last => if last = "" then "attachment" else last
    | none => "attachment"
  match a.filename with
  | some f => if f = "" then fromUrl else f
  | none => fromUrl

/-- `searchResult.records[0]` after the length guard: first array element,
first character of a string, an object's own `"0"` property. -/
def jsIndexZero : Json → Option Json
  | .arr (x :: _) => some x
  | .arr [] => none
  | .str s =>
      match s.data with
      | c :: _ => some (.str (String.singleton c))
      | [] => none
  | .obj fs => fs.lookup "0"
  | _ => none

/-- The field-name groups of the `validate_schema_compatibility` `switch`. -/
def stringFieldTypes : List String :=
  ["singleLineText", "multilineText", "email", "url", "phoneNumber"]

/-- Number-typed Airtable field types. -/
def numberFieldTypes : List String := ["number", "percent", "currency"]

/-- Date-typed Airtable field types. -/
def dateFieldTypes : List String := ["date", "dateTime"]

/-- Array-typed Airtable field types. -/
def arrayFieldTypes : List String := ["multipleSelects", "multipleRecordLinks"]

/-- One iteration of the validation loop of `validate_schema_compatibility`
(server.ts:1964-2016): validity flag and the result entry pushed onto
`validationResults`. -/
def validateOne (fieldMapRev : List (String × Json)) (entry : String × Json) :
    Bool × Json :=
  let k := entry.1
  let v := entry.2
  let missing : Bool × Json :=
    (false, .obj [("field", .str k), ("valid", .bool false),
                  ("error", .str "Field does not exist in table")])
  match fieldMapRev.lookup k with
  | none => missing
  | some f =>
      if ¬ f.truthy then missing
      else
        let check := fun (ok : Bool) (msg : String) =>
          (ok, if ok then Json.null else Json.str msg)
        let vr : Bool × Json :=
          match f.getField "type" with
          | some (.str t) =>
              if t ∈ stringFieldTypes then
                check (jsTypeof v == "string") ("Expected string, got " ++ jsTypeof v)
              else if t ∈ numberFieldTypes then
                check (jsTypeof v == "number") ("Expected number, got " ++ jsTypeof v)
              else if t ∈ dateFieldTypes then
                check (jsTypeof v == "string") ("Expected date string, got " ++ jsTypeof v)
              else if t = "checkbox" then
                check (jsTypeof v == "boolean") ("Expected boolean, got " ++ jsTypeof v)
              else if t ∈ arrayFieldTypes then
                check (jsIsArray v) ("Expected array, got " ++ jsTypeof v)
              else (true, .null)
          | _ => (true, .null)
        (vr.1, .obj [("field", .str k), ("valid", .bool vr.1), ("error", vr.2),
                     ("fieldType", (f.getField "type").getD .null)])

/-- The `switch (toolName)` body of the CallToolRequest handler
(server.ts:1304-2040), entered with the access token the authorization gate
resolved.  Each case calls the backend through `airtableApiRequest` with the
token as override and wraps the response; only `get_comments` and
`create_comment` wrap their backend call in `try`/`catch`.  The `default`
case throws `Unknown tool: ${toolName}`. -/
def runTool (backend : Backend) (accessToken : String) (name : String)
    (a : ToolArgs) : Except ServerError Envelope :=
  let api := airtableApiRequest backend accessToken
  if name = "list_bases" then do
    let data ← api "/meta/bases" "GET" none
    .ok { text := "Found " ++ lengthDisplay data "bases" ++ " accessible bases."
          structuredContent := some (.obj [("bases", jsOr (data.getField "bases") (.arr []))]) }
  else if name = "get_base_schema" then do
    let data ← api ("/meta/bases/" ++ a.baseId ++ "/tables") "GET" none
    .ok { text := "Retrieved schema for base " ++ a.baseId ++ " with " ++
            lengthDisplay data "tables" ++ " tables."
          structuredContent := some (.obj
            [("baseId", .str a.baseId),
             ("tables", jsOr (data.getField "tables") (.arr []))]) }
  else if name = "list_tables" then do
    let data ← api ("/meta/bases/" ++ a.baseId ++ "/tables") "GET" none
    let tables ← tablesSummaryList data
    .ok { text := "Found " ++ lengthDisplay data "tables" ++ " tables in base " ++
            a.baseId ++ "."
          structuredContent := some (.obj
            [("baseId", .str a.baseId), ("tables", tables)]) }
  else if name = "list_fields" then do
    let data ← api ("/meta/bases/" ++ a.baseId ++ "/tables/" ++ a.tableId) "GET" none
    .ok { text := "Found " ++ lengthDisplay data "fields" ++ " fields in table " ++
            a.tableId ++ "."
          structuredContent := some (.obj
            [("baseId", .str a.baseId), ("tableId", .str a.tableId),
             ("fields", jsOr (data.getField "fields") (.arr []))]) }
  else if name = "list_views" then do
    let data ← api ("/meta/bases/" ++ a.baseId ++ "/tables/" ++ a.tableId) "GET" none
    .ok { text := "Found " ++ lengthDisplay data "views" ++ " views in table " ++
            a.tableId ++ "."
          structuredContent := some (.obj
            [("baseId", .str a.baseId), ("tableId", .str a.tableId),
             ("views", jsOr (data.getField "views") (.arr []))]) }
  else if name = "list_records" then do
    let params := optStrParam "view" a.view ++
      optStrParam "filterByFormula" a.filterByFormula ++
      optNumParam "maxRecords" a.maxRecords ++
      optNumParam "pageSize" a.pageSize ++
      optStrParam "offset" a.offsetArg ++
      sortParams a.sort ++ fieldsListParams a.fieldsList
    let data ← api ("/" ++ a.baseId ++ "/" ++ a.tableId ++ "?" ++ renderQuery params)
      "GET" none
    .ok { text := "Found " ++ lengthDisplay data "records" ++ " records in table " ++
            a.tableId ++ "."
          structuredContent := some (.obj
            [("baseId", .str a.baseId), ("tableId", .str a.tableId),
             ("records", jsOr (data.getField "records") (.arr [])),
             ("offset", (data.getField "offset").getD .null)])
          widgetId := some "list-records" }
  else if name = "get_record" then do
    let data ← api ("/" ++ a.baseId ++ "/" ++ a.tableId ++ "/" ++ a.recordId) "GET" none
    .ok { text := "Retrieved record " ++ a.recordId ++ " from table " ++ a.tableId ++ "."
          structuredContent := some (.obj
            [("baseId", .str a.baseId), ("tableId", .str a.tableId),
             ("record", data)])
          widgetId := some "get-record" }
  else if name = "create_record" then do
    let data ← api ("/" ++ a.baseId ++ "/" ++ a.tableId) "POST"
      (some (.obj [("fields", .obj a.fields)]))
    .ok { text := "Successfully created record in table " ++ a.tableId ++ "."
          structuredContent := some (.obj
            [("baseId", .str a.baseId), ("tableId", .str a.tableId),
             ("record", data)])
          widgetId := some "create-records" }
  else if name = "update_record" then do
    let data ← api ("/" ++ a.baseId ++ "/" ++ a.tableId ++ "/" ++ a.recordId) "PATCH"
      (some (.obj [("fields", .obj a.fields)]))
    .ok { text := "Successfully updated record " ++ a.recordId ++ " in table " ++
            a.tableId ++ "."
          structuredContent := some (.obj
            [("baseId", .str a.baseId), ("tableId", .str a.tableId),
             ("recordId", .str a.recordId), ("record", data)])
          widgetId := some "update-record" }
  else if name = "replace_record" then do
    let data ← api ("/" ++ a.baseId ++ "/" ++ a.tableId ++ "/" ++ a.recordId) "PUT"
      (some (.obj [("fields", .obj a.fields)]))
    .ok { text := "Successfully replaced record " ++ a.recordId ++ " in table " ++
            a.tableId ++ "."
          structuredContent := some (.obj
            [("baseId", .str a.baseId), ("tableId", .str a.tableId),
             ("recordId", .str a.recordId), ("record", data)]) }
  else if name = "delete_record" then do
    let _ ← api ("/" ++ a.baseId ++ "/" ++ a.tableId ++ "/" ++ a.recordId) "DELETE" none
    .ok { text := "Successfully deleted record " ++ a.recordId ++ " from table " ++
            a.tableId ++ "." }
  else if name = "batch_create_records" then do
    let data ← api ("/" ++ a.baseId ++ "/" ++ a.tableId) "POST"
      (some (.obj [("records", a.records)]))
    .ok { text := "Successfully created " ++ lengthDisplay data "records" ++
            " records in table " ++ a.tableId ++ "."
          structuredContent := some (.obj
            [("baseId", .str a.baseId), ("tableId", .str a.tableId),
             ("records", jsOr (data.getField "records") (.arr []))]) }
  else if name = "batch_update_records" then do
    let data ← api ("/" ++ a.baseId ++ "/" ++ a.tableId) "PATCH"
      (some (.obj [("records", a.records)]))
    .ok { text := "Successfully updated " ++ lengthDisplay data "records" ++
            " records in table " ++ a.tableId ++ "."
          structuredContent := some (.obj
            [("baseId", .str a.baseId), ("tableId", .str a.tableId),
             ("records", jsOr (data.getField "records") (.arr []))]) }
  else if name = "batch_delete_records" then do
    let params := a.recordIds.map (fun i => ("records[]", i))
    let data ← api ("/" ++ a.baseId ++ "/" ++ a.tableId ++ "?" ++ renderQuery params)
      "DELETE" none
    .ok { text := "Successfully deleted " ++ toString a.recordIds.length ++
            " records from table " ++ a.tableId ++ "."
          structuredContent := some (.obj
            [("baseId", .str a.baseId), ("tableId", .str a.tableId),
             ("deleted", jsOr (data.getField "records") (.arr []))]) }
  else if name = "query_records" then do
    let params := optStrParam "filterByFormula" a.filterByFormula ++
      optStrParam "view" a.view ++
      optNumParam "maxRecords" a.maxRecords ++
      sortParams a.sort ++ fieldsListParams a.fieldsList
    let data ← api ("/" ++ a.baseId ++ "/" ++ a.tableId ++ "?" ++ renderQuery params)
      "GET" none
    .ok { text := "Query returned " ++ lengthDisplay data "records" ++
            " records from table " ++ a.tableId ++ "."
          structuredContent := some (.obj
            [("baseId", .str a.baseId), ("tableId", .str a.tableId),
             ("records", jsOr (data.getField "records") (.arr [])),
             ("offset", (data.getField "offset").getD .null)]) }
  else if name = "get_view_records" then do
    let params := [("view", a.viewId)] ++ optNumParam "maxRecords" a.maxRecords
    let data ← api ("/" ++ a.baseId ++ "/" ++ a.tableId ++ "?" ++ renderQuery params)
      "GET" none
    .ok { text := "View " ++ a.viewId ++ " contains " ++
            lengthDisplay data "records" ++ " records."
          structuredContent := some (.obj
            [("baseId", .str a.baseId), ("tableId", .str a.tableId),
             ("viewId", .str a.viewId),
             ("records", jsOr (data.getField "records") (.arr []))]) }
  else if name = "upload_attachment" then do
    let record ← api ("/" ++ a.baseId ++ "/" ++ a.tableId ++ "/" ++ a.recordId)
      "GET" none
    let indexed ← recordFieldsIndex record a.fieldName
    let current ← spreadCurrent (some (jsOr indexed (.arr [])))
    let newAttachment : Json := .obj
      [("url", .str a.url), ("filename", .str (attachmentFilename a))]
    let _ ← api ("/" ++ a.baseId ++ "/" ++ a.tableId ++ "/" ++ a.recordId) "PATCH"
      (some (.obj [("fields", .obj [(a.fieldName, .arr (current ++ [newAttachment]))])]))
    .ok { text := "Successfully attached file to record " ++ a.recordId ++ "."
          structuredContent := some (.obj
            [("baseId", .str a.baseId), ("tableId", .str a.tableId),
             ("recordId", .str a.recordId), ("attachment", newAttachment)]) }
  else if name = "list_attachments" then do
    let record ← api ("/" ++ a.baseId ++ "/" ++ a.tableId ++ "/" ++ a.recordId)
      "GET" none
    let indexed ← recordFieldsIndex record a.fieldName
    let attachments := jsOr indexed (.arr [])
    .ok { text := "Found " ++ jsToStr (jsLengthOf attachments) ++
            " attachments on record " ++ a.recordId ++ "."
          structuredContent := some (.obj
            [("baseId", .str a.baseId), ("tableId", .str a.tableId),
             ("recordId", .str a.recordId), ("fieldName", .str a.fieldName),
             ("attachments", attachments)]) }
  else if name = "get_comments" then
    match api ("/" ++ a.baseId ++ "/" ++ a.tableId ++ "/" ++ a.recordId ++ "/comments")
        "GET" none with
    | .ok data =>
        .ok { text := "Found " ++ lengthDisplay data "comments" ++
                " comments on record " ++ a.recordId ++ "."
              structuredContent := some (.obj
                [("baseId", .str a.baseId), ("tableId", .str a.tableId),
                 ("recordId", .str a.recordId),
                 ("comments", jsOr (data.getField "comments") (.arr []))]) }
    | .error e =>
        .ok { text := "Comments API not available or record does not support comments: " ++
                e.message }
  else if name = "create_comment" then
    match api ("/" ++ a.baseId ++ "/" ++ a.tableId ++ "/" ++ a.recordId ++ "/comments")
        "POST" (some (.obj [("text", .str a.commentText)])) with
    | .ok data =>
        .ok { text := "Successfully created comment on record " ++ a.recordId ++ "."
              structuredContent := some (.obj
                [("baseId", .str a.baseId), ("tableId", .str a.tableId),
                 ("recordId", .str a.recordId), ("comment", data)])
              widgetId := some "create-comment" }
    | .error e =>
        .ok { text := "Failed to create comment: " ++ e.message }
  else if name = "upsert_record" then do
    let formula := "\x7b" ++ a.uniqueField ++ "\x7d=\"" ++ a.uniqueValue ++ "\""
    let searchResult ← api ("/" ++ a.baseId ++ "/" ++ a.tableId ++ "?" ++
      renderQuery [("filterByFormula", formula)]) "GET" none
    let recordsVal := searchResult.getField "records"
    if jsLenGtZero recordsVal then do
      let firstRecord ← match jsIndexZero (jsOr recordsVal .null) with
        | some r => Except.ok r
        | none => Except.error (.typeError "records[0].id")
      let rawId := firstRecord.getField "id"
      let recordId := jsToStr rawId
      let data ← api ("/" ++ a.baseId ++ "/" ++ a.tableId ++ "/" ++ recordId) "PATCH"
        (some (.obj [("fields", .obj a.fields),
                     ("typecast", match a.typecast with
                       | some b => .bool b
                       | none => .null)]))
      .ok { text := "Updated existing record " ++ recordId ++ " in table " ++
              a.tableId ++ "."
            structuredContent := some (.obj
              [("baseId", .str a.baseId), ("tableId", .str a.tableId),
               ("recordId", rawId.getD .null), ("record", data),
               ("action", .str "updated")]) }
    else do
      let data ← api ("/" ++ a.baseId ++ "/" ++ a.tableId) "POST"
        (some (.obj [("fields", .obj a.fields),
                     ("typecast", match a.typecast with
                       | some b => .bool b
                       | none => .null)]))
      .ok { text := "Created new record in table " ++ a.tableId ++ "."
            structuredContent := some (.obj
              [("baseId", .str a.baseId), ("tableId", .str a.tableId),
               ("record", data), ("action", .str "created")]) }
  else if name = "validate_schema_compatibility" then do
    let schema ← api ("/meta/bases/" ++ a.baseId ++ "/tables/" ++ a.tableId)
      "GET" none
    let schemaFields ← match schema.getField "fields" with
      | some (.arr fs) => Except.ok fs
      | _ => Except.error (ServerError.typeError "schema.fields.map")
    let fieldMap := schemaFields.filterMap (fun f =>
      match f.getField "name" with
      | some (.str s) => some (s, f)
      | _ => none)
    let results := a.fields.map (validateOne fieldMap.reverse)
    let allValid := results.all (fun r => r.1)
    .ok { text := if allValid then "All fields are compatible with the table schema."
            else "Some fields are incompatible with the table schema."
          structuredContent := some (.obj
            [("baseId", .str a.baseId), ("tableId", .str a.tableId),
             ("valid", .bool allValid),
             ("validationResults", .arr (results.map (fun r => r.2)))]) }
  else
    .error (.unknownTool name)

/-- How one CallToolRequest dispatch terminates: a result envelope handed to
the framework, or a thrown error the framework converts into a structured
error response (the process does not crash either way). -/
inductive CallOutcome where
  | envelope (e : Envelope)
  | threw (e : ServerError)
deriving Repr

/-- Outcome of the complete CallToolRequest handler with the store updates
it performed. -/
structure DispatchResult where
  outcome : CallOutcome
  authSessions : TokenStore
  pendingAuthStates : PendingStore
  refreshCalls : Nat
deriving Repr

/-- The complete CallToolRequest handler (server.ts:1264-2041): the
authorization gate, then the tool switch run with the resolved token. -/
def handleCallTool (endpoint : RefreshEndpoint) (backend : Backend)
    (cfg : OAuthConfig) (now : TimeMs) (nonce : String) (st : GateState)
    (sessionId name : String) (a : ToolArgs) : DispatchResult :=
  let gate := authGate endpoint cfg now nonce st sessionId
  match gate.result with
  | .token tok =>
      { outcome := match runTool backend tok name a with
          | .ok env => .envelope env
          | .error e => .threw e
        authSessions := gate.authSessions
        pendingAuthStates := gate.pendingAuthStates
        refreshCalls := gate.refreshCalls }
  | .authPrompt t =>
      { outcome := .envelope { text := t }
        authSessions := gate.authSessions
        pendingAuthStates := gate.pendingAuthStates
        refreshCalls := gate.refreshCalls }
  | .threw e =>
      { outcome := .threw e
        authSessions := gate.authSessions
        pendingAuthStates := gate.pendingAuthStates
        refreshCalls := gate.refreshCalls }

/-- One `SessionRecord` of the `sessions` registry; the `server` and
`transport` handles carry no modelled state beyond their existence. -/
structure SessionRec where
  authHeader : Option String := none
deriving Repr, DecidableEq

/-- Terminal branch of `handlePostMessage`. -/
inductive PostOutcome where
  /-- `sessionId` query parameter missing (or empty, which JS treats as
  falsy): `400 Missing sessionId query parameter`. -/
  | missingSessionId
  /-- No registered transport under that correlation id: `404 Unknown session`. -/
  | unknownSession
  /-- Handed to `transport.handlePostMessage` successfully. -/
  | forwarded
  /-- The transport threw while handling: `500 Failed to process message`. -/
  | forwardFailed
deriving Repr, DecidableEq

/-- The HTTP status the server itself writes for a branch (`none` when the
SDK transport writes the response). -/
def PostOutcome.status : PostOutcome → Option Nat
  | .missingSessionId => some 400
  | .unknownSession => some 404
  | .forwarded => none
  | .forwardFailed => some 500

/-- `handlePostMessage` (server.ts:2102-2144).  `sessionIdParam` is the
`sessionId` query parameter, `authHeader` the request's `Authorization`
header, `forwardOk` whether `transport.handlePostMessage` succeeds.  Returns
the branch taken and the updated `sessions` / `sessionAuthHeaders` maps. -/
def handlePostMessage (sessions : List (String × SessionRec))
    (transportToSessionId sessionAuthHeaders : List (String × String))
    (sessionIdParam authHeader : Option String) (forwardOk : Bool) :
    PostOutcome × List (String × SessionRec) × List (String × String) :=
  if ¬ jsTruthy sessionIdParam then
    (.missingSessionId, sessions, sessionAuthHeaders)
  else
    let sessionId := sessionIdParam.getD ""
    match storeGet sessions sessionId with
    | none => (.unknownSession, sessions, sessionAuthHeaders)
    | some record =>
        let (sessions', headers') :=
          match authHeader with
          | some h =>
              (storeSet sessions sessionId { record with authHeader := some h },
               match storeGet transportToSessionId sessionId with
               | some actual => storeSet sessionAuthHeaders actual h
               | none => storeSet sessionAuthHeaders sessionId h)
          | none => (sessions, sessionAuthHeaders)
        ((if forwardOk then .forwarded else .forwardFailed), sessions', headers')

/-- The process-wide registries the SSE close hook touches. -/
structure ServerMaps where
  sessions : List (String × SessionRec)
  sessionAuthHeaders : List (String × String)
  transportToSessionId : List (String × String)
  authSessions : TokenStore
deriving Repr

/-- The `transport.onclose` hook registered by `handleSseRequest`
(server.ts:2077-2085): resolve the logical session mapped to the closing
transport, delete its ephemeral `sessionAuthHeaders` entry and the
`transportToSessionId` mapping, and drop the `sessions` binding.  The
durable `authSessions` entry is never touched. -/
def onTransportClose (m : ServerMaps) (transportSessionId : String) : ServerMaps :=
  match storeGet m.transportToSessionId transportSessionId with
  | some mapped =>
      { m with
          sessionAuthHeaders := storeErase m.sessionAuthHeaders mapped
          transportToSessionId := storeErase m.transportToSessionId transportSessionId
          sessions := storeErase m.sessions transportSessionId }
  | none =>
      { m with sessions := storeErase m.sessions transportSessionId }

/-- The placeholder `readWidgetHtml` returns when the assets directory does
not exist. -/
def notBuiltHtml : String :=
  "<html><body><div id=\"root\"></div><script>console.error(\x27Widget assets not built. Run npm run build:widgets\x27);</script></body></html>"

/-- The diagnostic placeholder for a widget whose HTML was found nowhere. -/
def widgetNotFoundHtml (componentName : String) : String :=
  "<html><body><div id=\"root\"></div><script>console.error(\x27Widget HTML for \"" ++
    componentName ++ "\" not found. Run npm run build:widgets\x27);</script></body></html>"

/-- The assets directory: `none` when `fs.existsSync(ASSETS_DIR)` is false,
otherwise the relative path → contents map of the files under it. -/
abbrev AssetsDir := Option (List (String × String))

/-- `readWidgetHtml(componentName)` (server.ts:54-94): direct
`<name>.html` hit first; else the lexicographically last
`<name>-*.html` from the directory listing; else the nested
`src/components/<name>.html` fallback; else the diagnostic placeholder. -/
def readWidgetHtml (assets : AssetsDir) (componentName : String) : String :=
  match assets with
  | none => notBuiltHtml
  | some files =>
      match storeGet files (componentName ++ ".html") with
      | some contents => contents
      | none =>
          let candidates := ((files.map Prod.fst).filter (fun f =>
            f.startsWith (componentName ++ "-") && f.endsWith ".html")).mergeSort
            (fun x y => decide (x ≤ y))
          match candidates.getLast? with
          | some fallback =>
              match storeGet files fallback with
              | some contents => contents
              | none => widgetNotFoundHtml componentName
          | none =>
              match storeGet files ("src/components/" ++ componentName ++ ".html") with
              | some contents => contents
              | none => widgetNotFoundHtml componentName

/-- One UI widget record (`AirtableWidget`); `html` is the content cache
field, initialized to `""` for every catalog entry. -/
structure AirtableWidget where
  id : String
  title : String
  templateUri : String
  invoking : String
  invoked : String
  html : String
  responseText : String
deriving Repr, DecidableEq

/-- The `list-records` widget as declared in the catalog. -/
def listRecordsWidget : AirtableWidget :=
  { id := "list-records", title := "List Records"
    templateUri := "ui://widget/list-records.html"
    invoking := "Loading Airtable records", invoked := "Loaded Airtable records"
    html := "", responseText := "Found Airtable records" }

/-- Result of serving one ReadResourceRequest for a widget: the HTML
returned, whether the file system was consulted, and the widget record as it
stands afterwards. -/
structure ReadResourceOutcome where
  html : String
  readFs : Bool
  widgetAfter : AirtableWidget
deriving Repr, DecidableEq

/-- The ReadResourceRequest handler body for a resolved widget
(server.ts:1234-1246): `const html = widget.html || readWidgetHtml(widget.id)`
followed by the response — the literal translation; no assignment back into
`widget.html` appears anywhere in the source, so the widget record is
returned unchanged. -/
def readResourceForWidget (assets : AssetsDir) (w : AirtableWidget) :
    ReadResourceOutcome :=
  if w.html ≠ "" then
    { html := w.html, readFs := false, widgetAfter := w }
  else
    { html := readWidgetHtml assets w.id, readFs := true, widgetAfter := w }

/-- `path.resolve` over an already-absolute segment sequence: drop empty and
`.` segments, let `..` consume the previous segment (clamping at the
filesystem root). -/
def normalizeSegs (segs : List String) : List String :=
  segs.foldl (fun acc s =>
    if s = "" ∨ s = "." then acc
    else if s = ".." then acc.dropLast
    else acc ++ [s]) []

/-- Render an absolute path from its segments (`["srv","assets"]` becomes
`"/srv/assets"`; the filesystem root, which never arises for the modelled
directories, renders as `""`). -/
def renderPath (segs : List String) : String :=
  segs.foldl (fun acc s => acc ++ "/" ++ s) ""

/-- Split a character sequence into path segments at `/` (the behavior of
`String.splitOn "/"`, stated recursively so the kernel can evaluate it). -/
def splitSegsAux : List Char → List Char → List String
  | [], cur => [String.mk cur.reverse]
  | c :: rest, cur =>
      if c = Char.ofNat 47 then String.mk cur.reverse :: splitSegsAux rest []
      else splitSegsAux rest (c :: cur)

/-- A path string as its `/`-separated segments. -/
def splitSegs (s : String) : List String :=
  splitSegsAux s.data []

/-- The `path.resolve(path.join(ASSETS_DIR, assetPath))` value for a request
path, with `assetPath = url.pathname.slice(1)`. -/
def resolvedFor (assetsDir : List String) (pathname : String) : List String :=
  normalizeSegs (assetsDir ++ splitSegs (jsSubstringFrom pathname 1))

/-- Terminal branch of the static-asset arm of the HTTP request handler. -/
inductive StaticResponse where
  /-- `403 Forbidden`: the resolved path fails the prefix check. -/
  | forbidden
  /-- Falls through to the closing `404 Not Found`. -/
  | notFoundResp
  /-- `200`: the file at the resolved path is streamed back. -/
  | serve (p : List String)
deriving Repr, DecidableEq

/-- The static-asset branch (server.ts:2268-2303) for a GET whose path is
none of the fixed endpoints.  `assetsDir` is the normalized absolute
`ASSETS_DIR`, `files` the set of existing regular files as segment paths and
`pathname` the request path.  The escape check is the source's
`resolvedPath.startsWith(path.resolve(ASSETS_DIR))` — a comparison of the
rendered path *strings*. -/
def staticBranch (files : List (List String)) (assetsDir : List String)
    (pathname : String) : StaticResponse :=
  let resolved := resolvedFor assetsDir pathname
  if ¬ jsStartsWith (renderPath resolved) (renderPath assetsDir) then
    .forbidden
  else if resolved ∈ files then
    .serve resolved
  else
    .notFoundResp

/-- ASCII lower-casing, as the WHATWG URL path parser compares
percent-encoded dot segments case-insensitively. -/
def lowerAscii (s : String) : String :=
  String.mk (s.data.map (fun c =>
    if 65 ≤ c.toNat ∧ c.toNat ≤ 90 then Char.ofNat (c.toNat + 32) else c))

/-- A single-dot path segment per the WHATWG URL standard (`.` or `%2e`,
case-insensitive). -/
def isSingleDotSeg (s : String) : Bool :=
  lowerAscii s == "." || lowerAscii s == "%2e"

/-- A double-dot path segment per the WHATWG URL standard (`..`, `.%2e`,
`%2e.` or `%2e%2e`, case-insensitive). -/
def isDoubleDotSeg (s : String) : Bool :=
  lowerAscii s == ".." || lowerAscii s == ".%2e" ||
    lowerAscii s == "%2e." || lowerAscii s == "%2e%2e"

/-- The WHATWG URL path state machine over the raw `/`-separated segments of
a path-absolute request target, as `new URL(req.url, base)` applies it
before `url.pathname` is read (server.ts:2243): a double-dot segment pops
the last accepted segment (with an empty segment appended when it ends the
path), a single-dot segment is dropped (likewise), anything else — empty
segments included — is kept verbatim.  Backslash delimiting is not
modelled; a segment containing `\` is kept whole, which only keeps more
text out of the dot-segment interpretation. -/
def urlPathSegments : List String → List String → List String
  | [], acc => acc
  | [s], acc =>
      if isDoubleDotSeg s then acc.dropLast ++ [""]
      else if isSingleDotSeg s then acc ++ [""]
      else acc ++ [s]
  | s :: rest, acc =>
      if isDoubleDotSeg s then urlPathSegments rest acc.dropLast
      else if isSingleDotSeg s then urlPathSegments rest acc
      else urlPathSegments rest (acc ++ [s])

/-- `url.pathname` for a raw request-target path (its path portion, before
any query string): the leading `/` is dropped, the segments run through the
dot-segment removal of URL parsing, and the result rendered back. -/
def urlPathname (rawTarget : String) : String :=
  renderPath (urlPathSegments (splitSegs (jsSubstringFrom rawTarget 1)) [])

/-- The static-asset arm at the request level: `new URL(req.url, ...)`
(server.ts:2243) turns the raw request target into `url.pathname`, which the
static branch (server.ts:2268-2303) then serves from. -/
def staticRequest (files : List (List String)) (assetsDir : List String)
    (rawTarget : String) : StaticResponse :=
  staticBranch files assetsDir (urlPathname rawTarget)

/-- The effect of `path.resolve` on a dot-free segment sequence: empty and
`.` segments are dropped, the rest kept in order. -/
def cleanSegs : List String → List String
  | [] => []
  | s :: rest => if s = "" ∨ s = "." then cleanSegs rest else s :: cleanSegs rest

/-! ## Claim theorems -/

/-- C2: for a session with a stored token, `getValidAccessToken` returns the
stored token unchanged with no refresh call when `now < expiry − 5min`, and
when `expiry − now < 5min` it performs exactly one refresh call against the
token endpoint and, on success, overwrites the stored access token and expiry
with the refreshed values.  `sidF`/`sF` is a fresh-token scenario and
`sidS`/`sS` a stale-token scenario over the same store and clock. -/
theorem getValidAccessToken_refresh_policy
    (endpoint : RefreshEndpoint) (now : TimeMs) (store : TokenStore)
    (sidF sidS : String) (sF sS : TokenState) (td : RefreshData)
    (hF : storeGet store sidF = some sF)
    (hS : storeGet store sidS = some sS)
    (hfresh : now < sF.expiresAt - 5 * 60 * 1000)
    (hstale : sS.expiresAt - now < 5 * 60 * 1000)
    (hep : endpoint sS.refreshToken = some td) :
    getValidAccessToken endpoint now store sidF = (.ok (sF.accessToken, store), 0) ∧
    getValidAccessToken endpoint now store sidS =
      (.ok (td.access_token,
        storeSet store sidS
          { sS with
              accessToken := td.access_token
              expiresAt := now + td.expires_in * 1000 }), 1) := by
  constructor
  · simp only [getValidAccessToken, hF]
    rw [if_neg (show ¬ now ≥ sF.expiresAt - 5 * 60 * 1000 by linarith)]
  · simp only [getValidAccessToken, hS]
    rw [if_pos (show now ≥ sS.expiresAt - 5 * 60 * 1000 by linarith)]
    simp only [hep]

/-- The refresh endpoint of the `getValidAccessToken_refresh_policy` witness
scenario: it answers only the stale session's refresh token. -/
def c2Endpoint : RefreshEndpoint :=
  fun rt => if rt = "r2" then some { access_token := "newTok", expires_in := 7200 } else none

/-- The token store of the witness scenario: one fresh and one stale session. -/
def c2Store : TokenStore :=
  [("fresh", { accessToken := "tokF", refreshToken := "r1", expiresAt := 1000000 }),
   ("stale", { accessToken := "tokS", refreshToken := "r2", expiresAt := 200000 })]

/-- Concrete instantiation of `getValidAccessToken_refresh_policy` at time 0:
the fresh session's token comes back unchanged with zero refresh calls, the
stale session's token is refreshed exactly once and overwritten. -/
theorem getValidAccessToken_refresh_policy_witness :
    getValidAccessToken c2Endpoint 0 c2Store "fresh" = (.ok ("tokF", c2Store), 0) ∧
    getValidAccessToken c2Endpoint 0 c2Store "stale" =
      (.ok ("newTok",
        storeSet c2Store "stale"
          { accessToken := "newTok", refreshToken := "r2", expiresAt := 7200000 }), 1) :=
  getValidAccessToken_refresh_policy c2Endpoint 0 c2Store "fresh" "stale"
    { accessToken := "tokF", refreshToken := "r1", expiresAt := 1000000 }
    { accessToken := "tokS", refreshToken := "r2", expiresAt := 200000 }
    { access_token := "newTok", expires_in := 7200 }
    (by decide) (by decide) (by decide) (by decide) (by decide)

/-- C9: when a transport closes, the registered `onclose` hook removes the
transport's `sessions` binding and the mapped logical session's ephemeral
`sessionAuthHeaders` entry (and the transport-to-session mapping), while the
durable `authSessions` store is left completely unchanged. -/
theorem transport_close_frame (m : ServerMaps) (tid mapped : String)
    (hmap : storeGet m.transportToSessionId tid = some mapped) :
    storeGet (onTransportClose m tid).sessions tid = none ∧
    storeGet (onTransportClose m tid).sessionAuthHeaders mapped = none ∧
    storeGet (onTransportClose m tid).transportToSessionId tid = none ∧
    (onTransportClose m tid).authSessions = m.authSessions := by
  simp only [onTransportClose, hmap]
  exact ⟨storeGet_storeErase_self _ _, storeGet_storeErase_self _ _,
    storeGet_storeErase_self _ _, trivial⟩

/-- Concrete instantiation of `transport_close_frame`: a registry with one
open transport bound to session `sess` that holds both a delegated header and
a durable OAuth token; closing removes the binding and header but keeps the
token state. -/
theorem transport_close_frame_witness :
    storeGet (onTransportClose
      { sessions := [("t1", { authHeader := some "Bearer abc" })]
        sessionAuthHeaders := [("sess", "Bearer abc")]
        transportToSessionId := [("t1", "sess")]
        authSessions := [("sess", { accessToken := "tok", refreshToken := "r", expiresAt := 99 })] }
      "t1").sessions "t1" = none ∧
    storeGet (onTransportClose
      { sessions := [("t1", { authHeader := some "Bearer abc" })]
        sessionAuthHeaders := [("sess", "Bearer abc")]
        transportToSessionId := [("t1", "sess")]
        authSessions := [("sess", { accessToken := "tok", refreshToken := "r", expiresAt := 99 })] }
      "t1").sessionAuthHeaders "sess" = none ∧
    storeGet (onTransportClose
      { sessions := [("t1", { authHeader := some "Bearer abc" })]
        sessionAuthHeaders := [("sess", "Bearer abc")]
        transportToSessionId := [("t1", "sess")]
        authSessions := [("sess", { accessToken := "tok", refreshToken := "r", expiresAt := 99 })] }
      "t1").transportToSessionId "t1" = none ∧
    (onTransportClose
      { sessions := [("t1", { authHeader := some "Bearer abc" })]
        sessionAuthHeaders := [("sess", "Bearer abc")]
        transportToSessionId := [("t1", "sess")]
        authSessions := [("sess", { accessToken := "tok", refreshToken := "r", expiresAt := 99 })] }
      "t1").authSessions =
      [("sess", { accessToken := "tok", refreshToken := "r", expiresAt := 99 })] :=
  transport_close_frame
    { sessions := [("t1", { authHeader := some "Bearer abc" })]
      sessionAuthHeaders := [("sess", "Bearer abc")]
      transportToSessionId := [("t1", "sess")]
      authSessions := [("sess", { accessToken := "tok", refreshToken := "r", expiresAt := 99 })] }
    "t1" "sess" (by decide)

/-- C7: `handlePostMessage` answers `400` when the `sessionId` query
parameter is absent (or empty, which the JS falsiness check treats the same)
and `404` when it names no registered transport — in neither case `500`.
`missingParam` is any non-truthy parameter value and `unknownId` any
non-empty id with no `sessions` binding. -/
theorem handlePostMessage_status
    (sessions : List (String × SessionRec))
    (t2s headers : List (String × String))
    (auth1 auth2 : Option String) (fw1 fw2 : Bool)
    (missingParam : Option String) (unknownId : String)
    (hmiss : jsTruthy missingParam = false)
    (hne : unknownId ≠ "")
    (hunk : storeGet sessions unknownId = none) :
    (handlePostMessage sessions t2s headers missingParam auth1 fw1).1.status = some 400 ∧
    (handlePostMessage sessions t2s headers (some unknownId) auth2 fw2).1.status = some 404 := by
  constructor
  · simp [handlePostMessage, hmiss, PostOutcome.status]
  · simp only [handlePostMessage, jsTruthy]
    rw [if_neg (by simp [bne_iff_ne, hne])]
    simp [Option.getD, hunk, PostOutcome.status]

/-- Concrete instantiation of `handlePostMessage_status` on an empty
transport registry: a missing parameter gives `400`, an unknown id `404`. -/
theorem handlePostMessage_status_witness :
    (handlePostMessage [] [] [] none none true).1.status = some 400 ∧
    (handlePostMessage [] [] [] (some "ghost") none true).1.status = some 404 :=
  handlePostMessage_status [] [] [] none none true true none "ghost"
    (by decide) (by decide) (by decide)

/-- C1: a dispatch call for a session with neither a stored OAuth token
state nor a cached delegated-credential header returns a *successful* result
envelope whose text is a human-readable instruction followed by the
constructed authorization URL — it never throws on missing auth.  The new
`state` nonce is recorded in `pendingAuthStates` for the session. -/
theorem dispatch_missing_auth_prompts
    (endpoint : RefreshEndpoint) (backend : Backend) (cfg : OAuthConfig)
    (now : TimeMs) (nonce sessionId name : String) (a : ToolArgs) (st : GateState)
    (hTok : storeGet st.authSessions sessionId = none)
    (hHdr : storeGet st.sessionAuthHeaders sessionId = none) :
    (handleCallTool endpoint backend cfg now nonce st sessionId name a).outcome =
      .envelope { text := "Please authenticate with Airtable to use this feature. Visit: " ++
        generateAuthUrl cfg nonce } ∧
    generateAuthUrl cfg nonce =
      "https://airtable.com/oauth2/v1/authorize?" ++
        renderQuery
          [("client_id", cfg.clientId), ("redirect_uri", cfg.redirectUri),
           ("response_type", "code"), ("state", nonce),
           ("scope", String.intercalate " " authScopes)] ∧
    storeGet (handleCallTool endpoint backend cfg now nonce st sessionId name a).pendingAuthStates
        nonce = some { sessionId := sessionId, createdAt := now } := by
  refine ⟨?_, rfl, ?_⟩
  · simp only [handleCallTool, authGate, hTok, hHdr]
  · simp only [handleCallTool, authGate, hTok, hHdr]
    exact storeGet_storeSet_self _ _ _

/-- The OAuth configuration of the concrete prompt scenario. -/
def c1Cfg : OAuthConfig :=
  { clientId := "cid", clientSecret := "sec"
    redirectUri := "http://localhost:8006/auth/callback" }

/-- Concrete instantiation of `dispatch_missing_auth_prompts`: empty stores,
a `list_bases` call for session `sess`. -/
theorem dispatch_missing_auth_prompts_witness :
    (handleCallTool (fun _ => none) (fun _ _ _ _ => .err 500 "boom") c1Cfg 0 "abc"
        { authSessions := [], sessionAuthHeaders := [], pendingAuthStates := [] }
        "sess" "list_bases" {}).outcome =
      .envelope { text := "Please authenticate with Airtable to use this feature. Visit: " ++
        generateAuthUrl c1Cfg "abc" } ∧
    generateAuthUrl c1Cfg "abc" =
      "https://airtable.com/oauth2/v1/authorize?" ++
        renderQuery
          [("client_id", c1Cfg.clientId), ("redirect_uri", c1Cfg.redirectUri),
           ("response_type", "code"), ("state", "abc"),
           ("scope", String.intercalate " " authScopes)] ∧
    storeGet (handleCallTool (fun _ => none) (fun _ _ _ _ => .err 500 "boom") c1Cfg 0 "abc"
        { authSessions := [], sessionAuthHeaders := [], pendingAuthStates := [] }
        "sess" "list_bases" {}).pendingAuthStates "abc" =
      some { sessionId := "sess", createdAt := 0 } :=
  dispatch_missing_auth_prompts (fun _ => none) (fun _ _ _ _ => .err 500 "boom") c1Cfg
    0 "abc" "sess" "list_bases" {}
    { authSessions := [], sessionAuthHeaders := [], pendingAuthStates := [] }
    (by decide) (by decide)

/-- C10: once a delegated bearer header has been adopted into a session's
token state (empty refresh token, one-hour assumed expiry), any later
dispatch within five minutes of that assumed expiry or after it re-enters
`getValidAccessToken`, attempts a refresh with the empty refresh token
(which the token endpoint rejects) and therefore throws — even when the
later request has cached a fresh `Authorization` header for the session:
the delegated-header fallback is only consulted when `authSessions` has no
entry at all, so the re-supplied header is never re-adopted and the token
store is left unchanged. -/
theorem delegated_token_stale_throws
    (endpoint : RefreshEndpoint) (cfg : OAuthConfig) (st st2 : GateState)
    (sessionId header freshHeader nonce1 nonce2 : String) (now1 now2 : TimeMs)
    (hTok : storeGet st.authSessions sessionId = none)
    (hHdr : storeGet st.sessionAuthHeaders sessionId = some header)
    (hne0 : header ≠ "")
    (hBearer : jsStartsWith header "Bearer " = true)
    (hne : jsSubstringFrom header 7 ≠ "")
    (hA2 : st2.authSessions =
      storeSet st.authSessions sessionId
        { accessToken := jsSubstringFrom header 7, refreshToken := ""
          expiresAt := now1 + 3600000 })
    (hH2 : storeGet st2.sessionAuthHeaders sessionId = some freshHeader)
    (hF2 : jsStartsWith freshHeader "Bearer " = true)
    (hstale : now2 ≥ now1 + 3600000 - 5 * 60 * 1000)
    (hrej : endpoint "" = none) :
    (authGate endpoint cfg now1 nonce1 st sessionId).result =
      .token (jsSubstringFrom header 7) ∧
    (authGate endpoint cfg now1 nonce1 st sessionId).authSessions = st2.authSessions ∧
    (authGate endpoint cfg now2 nonce2 st2 sessionId).result = .threw (.refreshFailed "") ∧
    (authGate endpoint cfg now2 nonce2 st2 sessionId).authSessions = st2.authSessions := by
  have hadopt :
      (authGate endpoint cfg now1 nonce1 st sessionId).result =
        .token (jsSubstringFrom header 7) ∧
      (authGate endpoint cfg now1 nonce1 st sessionId).authSessions = st2.authSessions := by
    have hc1 : (header != "" && jsStartsWith header "Bearer ") = true := by
      rw [hBearer, Bool.and_true]
      exact bne_iff_ne.mpr hne0
    have hc2 : ((jsSubstringFrom header 7) == "") = false := beq_eq_false_iff_ne.mpr hne
    rw [hA2]
    simp [authGate, hTok, hHdr, hc1, hc2]
  have hsecond :
      (authGate endpoint cfg now2 nonce2 st2 sessionId).result = .threw (.refreshFailed "") ∧
      (authGate endpoint cfg now2 nonce2 st2 sessionId).authSessions = st2.authSessions := by
    have hlook : storeGet st2.authSessions sessionId =
        some { accessToken := jsSubstringFrom header 7, refreshToken := ""
               expiresAt := now1 + 3600000 } := by
      rw [hA2]; exact storeGet_storeSet_self _ _ _
    simp only [authGate, hlook, getValidAccessToken]
    rw [if_pos (show now2 ≥ (now1 + 3600000 : TimeMs) - 5 * 60 * 1000 by linarith)]
    simp only [hrej]
    constructor <;> first | rfl | trivial
  exact ⟨hadopt.1, hadopt.2, hsecond.1, hsecond.2⟩

/-- Concrete instantiation of `delegated_token_stale_throws`: session `sess`
supplies `Bearer abc`, which is adopted at time 0 with assumed expiry
3600000; a dispatch at 3300000 (the start of the refresh window) attempts a
refresh with the empty refresh token and throws, although `Bearer fresh` is
cached for the session. -/
theorem delegated_token_stale_throws_witness :
    (authGate (fun _ => none) c1Cfg 0 "n1"
        { authSessions := [], sessionAuthHeaders := [("sess", "Bearer abc")],
          pendingAuthStates := [] } "sess").result = .token "abc" ∧
    (authGate (fun _ => none) c1Cfg 0 "n1"
        { authSessions := [], sessionAuthHeaders := [("sess", "Bearer abc")],
          pendingAuthStates := [] } "sess").authSessions =
      [("sess", { accessToken := "abc", refreshToken := "", expiresAt := 3600000 })] ∧
    (authGate (fun _ => none) c1Cfg 3300000 "n2"
        { authSessions := [("sess", { accessToken := "abc", refreshToken := "", expiresAt := 3600000 })],
          sessionAuthHeaders := [("sess", "Bearer fresh")],
          pendingAuthStates := [] } "sess").result = .threw (.refreshFailed "") ∧
    (authGate (fun _ => none) c1Cfg 3300000 "n2"
        { authSessions := [("sess", { accessToken := "abc", refreshToken := "", expiresAt := 3600000 })],
          sessionAuthHeaders := [("sess", "Bearer fresh")],
          pendingAuthStates := [] } "sess").authSessions =
      [("sess", { accessToken := "abc", refreshToken := "", expiresAt := 3600000 })] :=
  delegated_token_stale_throws (fun _ => none) c1Cfg
    { authSessions := [], sessionAuthHeaders := [("sess", "Bearer abc")],
      pendingAuthStates := [] }
    { authSessions := [("sess", { accessToken := "abc", refreshToken := "", expiresAt := 3600000 })],
      sessionAuthHeaders := [("sess", "Bearer fresh")],
      pendingAuthStates := [] }
    "sess" "Bearer abc" "Bearer fresh" "n1" "n2" 0 3300000
    (by decide) (by decide) (by decide) (by decide) (by decide)
    (by decide) (by decide) (by decide) (by decide) (by decide)

theorem storeGet_filter_none (m : List (String × α)) (k : String)
    (p : String × α → Bool) (h : ∀ x ∈ m, x.1 = k → p x = false) :
    storeGet (m.filter p) k = none := by
  simp only [storeGet]
  induction m with
  | nil => rfl
  | cons hd tl ih =>
      rcases hd with ⟨a, b⟩
      by_cases hp : p (a, b) = true
      · have hak : ¬ a = k := by
          intro hak
          rw [h (a, b) (List.mem_cons_self _ _) hak] at hp
          cases hp
        rw [List.filter_cons_of_pos hp, List.lookup_cons,
          beq_eq_false_iff_ne.mpr (Ne.symm hak)]
        exact ih (fun x hx hk => h x (List.mem_cons_of_mem _ hx) hk)
      · rw [List.filter_cons_of_neg hp]
        exact ih (fun x hx hk => h x (List.mem_cons_of_mem _ hx) hk)

/-- C3 counterexample: a pending-authorization nonce issued at time 0 and
consumed at 600001 ms (strictly after the 10-minute TTL) with no intervening
sweep is *not* refused — the callback looks the state up before sweeping and
never checks the found entry's own age, so the exchange succeeds. -/
theorem pendingAuth_expired_consume_cex :
    (handleAuthCallback
        (fun _ => some { access_token := "at", refresh_token := "rt", expires_in := 3600 })
        600001 none (some "code") (some "nonce")
        [("nonce", { sessionId := "sess", createdAt := 0 })] []).1 = .success "sess" := by
  rfl

/-- C3 (amended): the authorization callback consumes a pending nonce
whenever the binding is still present — regardless of its age, so also
strictly after T+10min when no earlier callback has swept it — removing the
binding and installing the exchanged token for the owning session; entries
older than the TTL are evicted only by the sweep this lookup triggers (here:
`other`, all of whose entries are expired, is gone afterwards), so an
expired nonce is refused only once such a sweep has removed it. -/
theorem pendingAuth_consume_lazy
    (exchange : ExchangeEndpoint) (now : TimeMs) (code state other : String)
    (pending : PendingStore) (auth : TokenStore) (pa : PendingAuth) (td : ExchangeData)
    (hcode : code ≠ "") (hstate : state ≠ "")
    (hfound : storeGet pending state = some pa)
    (hex : exchange code = some td)
    (hother : other ≠ state)
    (hold : ∀ x ∈ pending, x.1 = other → now - x.2.createdAt > 10 * 60 * 1000) :
    (handleAuthCallback exchange now none (some code) (some state) pending auth).1 =
      .success pa.sessionId ∧
    storeGet
      (handleAuthCallback exchange now none (some code) (some state) pending auth).2.1
      state = none ∧
    storeGet
      (handleAuthCallback exchange now none (some code) (some state) pending auth).2.1
      other = none ∧
    storeGet
      (handleAuthCallback exchange now none (some code) (some state) pending auth).2.2
      pa.sessionId =
      some { accessToken := td.access_token, refreshToken := td.refresh_token,
             expiresAt := now + td.expires_in * 1000 } := by
  have hred : handleAuthCallback exchange now none (some code) (some state) pending auth =
      (.success pa.sessionId,
       storeErase (pending.filter (fun p => ¬ (now - p.2.createdAt > 10 * 60 * 1000))) state,
       storeSet auth pa.sessionId
         { accessToken := td.access_token, refreshToken := td.refresh_token,
           expiresAt := now + td.expires_in * 1000 }) := by
    simp only [handleAuthCallback]
    rw [if_neg (by simp [jsTruthy])]
    rw [if_neg (by simp [jsTruthy, bne_iff_ne, hcode, hstate])]
    simp only [Option.getD_some, hfound, hex]
  refine ⟨by rw [hred], ?_, ?_, ?_⟩
  · rw [hred]
    exact storeGet_storeErase_self _ _
  · rw [hred]
    rw [storeGet_storeErase_ne _ _ _ hother]
    refine storeGet_filter_none _ _ _ (fun x hx hk => ?_)
    exact decide_eq_false (not_not_intro (hold x hx hk))
  · rw [hred]
    exact storeGet_storeSet_self _ _ _

/-- Concrete instantiation of `pendingAuth_consume_lazy` at time 600001 ms:
the nonce issued at time 0 (already expired, never swept) is still consumed
successfully, its binding removed, the expired `other` entry swept, and the
token installed for session `sess`. -/
theorem pendingAuth_consume_lazy_witness :
    (handleAuthCallback
        (fun _ => some { access_token := "at", refresh_token := "rt", expires_in := 3600 })
        600001 none (some "c") (some "n")
        [("n", { sessionId := "sess", createdAt := 0 }),
         ("old", { sessionId := "s2", createdAt := -1 })] []).1 = .success "sess" ∧
    storeGet (handleAuthCallback
        (fun _ => some { access_token := "at", refresh_token := "rt", expires_in := 3600 })
        600001 none (some "c") (some "n")
        [("n", { sessionId := "sess", createdAt := 0 }),
         ("old", { sessionId := "s2", createdAt := -1 })] []).2.1 "n" = none ∧
    storeGet (handleAuthCallback
        (fun _ => some { access_token := "at", refresh_token := "rt", expires_in := 3600 })
        600001 none (some "c") (some "n")
        [("n", { sessionId := "sess", createdAt := 0 }),
         ("old", { sessionId := "s2", createdAt := -1 })] []).2.1 "old" = none ∧
    storeGet (handleAuthCallback
        (fun _ => some { access_token := "at", refresh_token := "rt", expires_in := 3600 })
        600001 none (some "c") (some "n")
        [("n", { sessionId := "sess", createdAt := 0 }),
         ("old", { sessionId := "s2", createdAt := -1 })] []).2.2 "sess" =
      some { accessToken := "at", refreshToken := "rt", expiresAt := 4200001 } := by
  have h := pendingAuth_consume_lazy
    (fun _ => some { access_token := "at", refresh_token := "rt", expires_in := 3600 })
    600001 "c" "n" "old"
    [("n", { sessionId := "sess", createdAt := 0 }),
     ("old", { sessionId := "s2", createdAt := -1 })] []
    { sessionId := "sess", createdAt := 0 }
    { access_token := "at", refresh_token := "rt", expires_in := 3600 }
    (by decide) (by decide) (by decide) (by decide) (by decide) (by decide)
  exact h

/-- C4 (code defect): the spec promises that once a resource's content is
loaded it is served from the in-memory cache; the handler's own
`widget.html || readWidgetHtml(...)` check exists for exactly that purpose,
but no code ever assigns `widget.html`, so the cache stays empty forever.
Concretely: a first resolve of `list-records` reads `"A"` from disk and
leaves the widget record unchanged (`html` still `""`); a second resolve
against a file system now holding `"B"` reads the file system again and
returns `"B"`, not the previously loaded `"A"`. -/
theorem readResource_no_cache_bug :
    (readResourceForWidget (some [("list-records.html", "A")]) listRecordsWidget).html = "A" ∧
    (readResourceForWidget (some [("list-records.html", "A")]) listRecordsWidget).readFs = true ∧
    (readResourceForWidget (some [("list-records.html", "A")]) listRecordsWidget).widgetAfter =
      listRecordsWidget ∧
    (readResourceForWidget (some [("list-records.html", "B")])
        (readResourceForWidget (some [("list-records.html", "A")])
          listRecordsWidget).widgetAfter).html = "B" ∧
    (readResourceForWidget (some [("list-records.html", "B")])
        (readResourceForWidget (some [("list-records.html", "A")])
          listRecordsWidget).widgetAfter).readFs = true :=
  ⟨rfl, rfl, rfl, rfl, rfl⟩

/-- C5 counterexample: the `get_comments` operation wraps its backend call in
`try`/`catch`; a backend answering `404 NOT_FOUND` does not surface as an
error — the dispatch returns a success-shaped envelope whose text embeds the
error message. -/
theorem get_comments_swallows_upstream_cex :
    runTool (fun _ _ _ _ => .err 404 "NOT_FOUND") "tok" "get_comments" {} =
      .ok { text := "Comments API not available or record does not support comments: Airtable API error: 404 NOT_FOUND" } := by
  rfl

/-- C5 (amended): for every catalog operation except `get_comments` and
`create_comment`, a backend that answers any call with a non-success status
makes the dispatch propagate the thrown upstream error carrying that status
and body; the two comment operations instead swallow it into a
success-shaped envelope. -/
theorem upstream_error_propagation_amended
    (name : String) (a : ToolArgs) (tok : String) (status : Nat) (body : String)
    (hmem : name ∈ toolNames)
    (h1 : name ≠ "get_comments") (h2 : name ≠ "create_comment") :
    runTool (fun _ _ _ _ => .err status body) tok name a =
      .error (.apiError status body) := by
  simp only [toolNames] at hmem
  fin_cases hmem <;>
    first
      | exact absurd rfl h1
      | exact absurd rfl h2
      | rfl

/-- Concrete instantiation of `upstream_error_propagation_amended` at
`list_records` with a backend answering `403 FORBIDDEN`. -/
theorem upstream_error_propagation_amended_witness :
    runTool (fun _ _ _ _ => .err 403 "FORBIDDEN") "tok" "list_records" {} =
      .error (.apiError 403 "FORBIDDEN") :=
  upstream_error_propagation_amended "list_records" {} "tok" 403 "FORBIDDEN"
    (by decide) (by decide) (by decide)

/-- C6 counterexample: dispatching an operation that is not in the catalog
for a session with no resolvable credential does not produce the unknown-tool
error — the authorization gate terminates the call first with the auth-URL
success envelope. -/
theorem unknown_tool_unauthenticated_cex :
    (handleCallTool (fun _ => none) (fun _ _ _ _ => .err 500 "x") c1Cfg 0 "n"
        { authSessions := [], sessionAuthHeaders := [], pendingAuthStates := [] }
        "sess" "no_such_tool" {}).outcome =
      .envelope { text := "Please authenticate with Airtable to use this feature. Visit: " ++
        generateAuthUrl c1Cfg "n" } := by
  rfl

theorem runTool_unknown (backend : Backend) (tok : String) (name : String)
    (a : ToolArgs) (hunk : name ∉ toolNames) :
    runTool backend tok name a = .error (.unknownTool name) := by
  have h : ¬ (name = "list_bases" ∨ name = "get_base_schema" ∨ name = "list_tables" ∨
      name = "list_fields" ∨ name = "list_views" ∨ name = "list_records" ∨
      name = "get_record" ∨ name = "create_record" ∨ name = "update_record" ∨
      name = "replace_record" ∨ name = "delete_record" ∨ name = "batch_create_records" ∨
      name = "batch_update_records" ∨ name = "batch_delete_records" ∨
      name = "query_records" ∨ name = "get_view_records" ∨ name = "upload_attachment" ∨
      name = "list_attachments" ∨ name = "get_comments" ∨ name = "create_comment" ∨
      name = "upsert_record" ∨ name = "validate_schema_compatibility") := by
    simpa [toolNames] using hunk
  push_neg at h
  obtain ⟨h1, h2, h3, h4, h5, h6, h7, h8, h9, h10, h11, h12, h13, h14, h15, h16, h17,
    h18, h19, h20, h21, h22⟩ := h
  simp [runTool, h1, h2, h3, h4, h5, h6, h7, h8, h9, h10, h11, h12, h13, h14, h15,
    h16, h17, h18, h19, h20, h21, h22]

/-- C6 (amended): a dispatch call that passes the authorization gate (here: a
fresh stored token with a non-empty access token) and names an operation
outside the fixed catalog terminates with the thrown `Unknown tool` error
identifying the operation — the structured error outcome, never a process
crash (the model is a total function). -/
theorem unknown_tool_notfound_amended
    (endpoint : RefreshEndpoint) (backend : Backend) (cfg : OAuthConfig)
    (now : TimeMs) (nonce sessionId name : String) (a : ToolArgs)
    (st : GateState) (s : TokenState)
    (hTok : storeGet st.authSessions sessionId = some s)
    (hfresh : now < s.expiresAt - 5 * 60 * 1000)
    (hne : s.accessToken ≠ "")
    (hunk : name ∉ toolNames) :
    (handleCallTool endpoint backend cfg now nonce st sessionId name a).outcome =
      .threw (.unknownTool name) := by
  have hb : (s.accessToken == "") = false := beq_eq_false_iff_ne.mpr hne
  simp only [handleCallTool, authGate, getValidAccessToken, hTok]
  rw [if_neg (show ¬ now ≥ s.expiresAt - 5 * 60 * 1000 by linarith)]
  simp [hb, runTool_unknown backend s.accessToken name a hunk]

/-- Concrete instantiation of `unknown_tool_notfound_amended`: an
authenticated session dispatching `no_such_tool`. -/
theorem unknown_tool_notfound_amended_witness :
    (handleCallTool (fun _ => none) (fun _ _ _ _ => .err 500 "x") c1Cfg 0 "n"
        { authSessions :=
            [("sess", { accessToken := "tok", refreshToken := "r", expiresAt := 1000000 })],
          sessionAuthHeaders := [], pendingAuthStates := [] }
        "sess" "no_such_tool" {}).outcome = .threw (.unknownTool "no_such_tool") :=
  unknown_tool_notfound_amended (fun _ => none) (fun _ _ _ _ => .err 500 "x") c1Cfg
    0 "n" "sess" "no_such_tool" {}
    { authSessions :=
        [("sess", { accessToken := "tok", refreshToken := "r", expiresAt := 1000000 })],
      sessionAuthHeaders := [], pendingAuthStates := [] }
    { accessToken := "tok", refreshToken := "r", expiresAt := 1000000 }
    (by decide) (by decide) (by decide) (by decide)

theorem renderPath_foldl_prefix (t : List String) (init : String) :
    init.data <+: (t.foldl (fun acc s => acc ++ "/" ++ s) init).data := by
  induction t generalizing init with
  | nil => exact List.prefix_refl _
  | cons s rest ih =>
      refine List.IsPrefix.trans ?_ (ih (init ++ "/" ++ s))
      simp

theorem jsStartsWith_renderPath_append (a t : List String) :
    jsStartsWith (renderPath (a ++ t)) (renderPath a) = true := by
  simp only [jsStartsWith, renderPath, List.foldl_append, List.isPrefixOf_iff_prefix]
  exact renderPath_foldl_prefix t _

theorem splitSegsAux_ne_nil (cs cur : List Char) : splitSegsAux cs cur ≠ [] := by
  induction cs generalizing cur with
  | nil => simp [splitSegsAux]
  | cons c rest ih =>
      by_cases hc : c = Char.ofNat 47
      · simp [splitSegsAux, hc]
      · simpa [splitSegsAux, hc] using ih (c :: cur)

theorem splitSegsAux_append_noSlash (cs l cur : List Char)
    (h : ∀ c ∈ cs, c ≠ Char.ofNat 47) :
    splitSegsAux (cs ++ l) cur = splitSegsAux l (cs.reverse ++ cur) := by
  induction cs generalizing cur with
  | nil => simp
  | cons c rest ih =>
      have hc : c ≠ Char.ofNat 47 := h c (List.mem_cons_self _ _)
      rw [List.cons_append]
      simp only [splitSegsAux, if_neg hc]
      rw [ih (c :: cur) (fun x hx => h x (List.mem_cons_of_mem _ hx))]
      simp

theorem splitSegsAux_noSlash (cs cur : List Char)
    (hcur : ∀ c ∈ cur, c ≠ Char.ofNat 47) :
    ∀ x ∈ splitSegsAux cs cur, ∀ c ∈ x.data, c ≠ Char.ofNat 47 := by
  induction cs generalizing cur with
  | nil =>
      intro x hx c hc
      simp only [splitSegsAux, List.mem_singleton] at hx
      subst hx
      exact hcur c (by simpa using hc)
  | cons d rest ih =>
      intro x hx c hc
      by_cases hd : d = Char.ofNat 47
      · simp only [splitSegsAux, if_pos hd, List.mem_cons] at hx
        rcases hx with hx | hx
        · subst hx
          exact hcur c (by simpa using hc)
        · exact ih [] (by simp) x hx c hc
      · simp only [splitSegsAux, if_neg hd] at hx
        refine ih (d :: cur) ?_ x hx c hc
        intro e he
        rcases List.mem_cons.mp he with he | he
        · subst he; exact hd
        · exact hcur e he

theorem splitSegs_noSlash (s : String) :
    ∀ x ∈ splitSegs s, ∀ c ∈ x.data, c ≠ Char.ofNat 47 :=
  splitSegsAux_noSlash s.data [] (by simp)

theorem splitSegs_ne_nil (s : String) : splitSegs s ≠ [] :=
  splitSegsAux_ne_nil s.data []

theorem renderPath_foldl_data (l : List String) (init : String) :
    (l.foldl (fun acc s => acc ++ "/" ++ s) init).data =
      init.data ++ (l.map (fun x => Char.ofNat 47 :: x.data)).flatten := by
  induction l generalizing init with
  | nil => simp
  | cons s rest ih =>
      rw [List.foldl_cons, ih]
      simp [List.append_assoc]

theorem splitSegsAux_cons_slash (l cur : List Char) :
    splitSegsAux (Char.ofNat 47 :: l) cur =
      String.mk cur.reverse :: splitSegsAux l [] := by
  simp [splitSegsAux]

theorem splitSegs_renderPath (a : String) (rest : List String)
    (ha : ∀ c ∈ a.data, c ≠ Char.ofNat 47)
    (hrest : ∀ x ∈ rest, ∀ c ∈ x.data, c ≠ Char.ofNat 47) :
    splitSegs (jsSubstringFrom (renderPath (a :: rest)) 1) = a :: rest := by
  have hdata : (jsSubstringFrom (renderPath (a :: rest)) 1).data =
      a.data ++ (rest.map (fun x => Char.ofNat 47 :: x.data)).flatten := by
    simp only [jsSubstringFrom, renderPath, renderPath_foldl_data]
    rfl
  show splitSegsAux (jsSubstringFrom (renderPath (a :: rest)) 1).data [] = a :: rest
  rw [hdata]
  clear hdata
  induction rest generalizing a with
  | nil =>
      rw [List.map_nil, List.flatten_nil, List.append_nil,
        show a.data = a.data ++ [] from (List.append_nil _).symm,
        splitSegsAux_append_noSlash a.data [] [] ha, List.append_nil]
      show [String.mk a.data.reverse.reverse] = [a]
      rw [List.reverse_reverse]
  | cons b rest2 ih =>
      rw [List.map_cons, List.flatten_cons,
        splitSegsAux_append_noSlash a.data _ [] ha, List.cons_append,
        splitSegsAux_cons_slash, List.append_nil, List.reverse_reverse]
      have hb : ∀ c ∈ b.data, c ≠ Char.ofNat 47 := hrest b (List.mem_cons_self _ _)
      rw [ih b hb (fun x hx => hrest x (List.mem_cons_of_mem _ hx))]

theorem urlPathSegments_ne_nil (raws acc : List String) (h : raws ≠ []) :
    urlPathSegments raws acc ≠ [] := by
  induction raws generalizing acc with
  | nil => exact absurd rfl h
  | cons s rest ih =>
      cases rest with
      | nil =>
          simp only [urlPathSegments]
          split_ifs <;> simp
      | cons r rs =>
          simp only [urlPathSegments]
          split_ifs <;> exact ih _ (by simp)

theorem urlPathSegments_clean (raws acc : List String)
    (hacc : ∀ x ∈ acc, x ≠ ".." ∧ ∀ c ∈ x.data, c ≠ Char.ofNat 47)
    (hraws : ∀ x ∈ raws, ∀ c ∈ x.data, c ≠ Char.ofNat 47) :
    ∀ y ∈ urlPathSegments raws acc,
      y ≠ ".." ∧ ∀ c ∈ y.data, c ≠ Char.ofNat 47 := by
  induction raws generalizing acc with
  | nil =>
      intro y hy
      exact hacc y hy
  | cons s rest ih =>
      have hempty : ("" : String) ≠ ".." ∧ ∀ c ∈ ("" : String).data, c ≠ Char.ofNat 47 := by
        constructor
        · decide
        · intro c hc
          cases hc
      have hdropLast : ∀ x ∈ acc.dropLast, x ≠ ".." ∧ ∀ c ∈ x.data, c ≠ Char.ofNat 47 :=
        fun x hx => hacc x (List.dropLast_subset _ hx)
      cases rest with
      | nil =>
          intro y hy
          simp only [urlPathSegments] at hy
          split_ifs at hy with h1 h2
          · rcases List.mem_append.mp hy with hy | hy
            · exact hdropLast y hy
            · rw [List.mem_singleton.mp hy]
              exact hempty
          · rcases List.mem_append.mp hy with hy | hy
            · exact hacc y hy
            · rw [List.mem_singleton.mp hy]
              exact hempty
          · rcases List.mem_append.mp hy with hy | hy
            · exact hacc y hy
            · rw [List.mem_singleton.mp hy]
              refine ⟨fun hs => h1 ?_, hraws s (List.mem_cons_self _ _)⟩
              rw [hs]
              decide
      | cons r rs =>
          intro y hy
          have hrest : ∀ x ∈ r :: rs, ∀ c ∈ x.data, c ≠ Char.ofNat 47 :=
            fun x hx => hraws x (List.mem_cons_of_mem _ hx)
          simp only [urlPathSegments] at hy
          split_ifs at hy with h1 h2
          · exact ih acc.dropLast hdropLast hrest y hy
          · exact ih acc hacc hrest y hy
          · refine ih (acc ++ [s]) ?_ hrest y hy
            intro x hx
            rcases List.mem_append.mp hx with hx | hx
            · exact hacc x hx
            · rw [List.mem_singleton.mp hx]
              refine ⟨fun hs => h1 ?_, hraws s (List.mem_cons_self _ _)⟩
              rw [hs]
              decide

theorem normalizeSegs_append_no_dotdot (a t : List String)
    (h : ∀ x ∈ t, x ≠ "..") :
    normalizeSegs (a ++ t) = normalizeSegs a ++ cleanSegs t := by
  unfold normalizeSegs
  rw [List.foldl_append]
  generalize List.foldl _ [] a = acc
  induction t generalizing acc with
  | nil => simp [cleanSegs]
  | cons s rest ih =>
      have hs : s ≠ ".." := h s (List.mem_cons_self _ _)
      have hrest : ∀ x ∈ rest, x ≠ ".." := fun x hx => h x (List.mem_cons_of_mem _ hx)
      by_cases h1 : s = "" ∨ s = "."
      · rw [List.foldl_cons]
        simp only [if_pos h1]
        rw [ih hrest acc]
        simp [cleanSegs, if_pos h1]
      · rw [List.foldl_cons]
        simp only [if_neg h1, if_neg hs]
        rw [ih hrest (acc ++ [s])]
        simp [cleanSegs, if_neg h1]

theorem resolvedFor_urlPathname_inside (assetsDir : List String) (raw : String)
    (hnorm : normalizeSegs assetsDir = assetsDir) :
    assetsDir <+: resolvedFor assetsDir (urlPathname raw) := by
  have hslash : ∀ x ∈ splitSegs (jsSubstringFrom raw 1), ∀ c ∈ x.data, c ≠ Char.ofNat 47 :=
    splitSegs_noSlash _
  have hout := urlPathSegments_clean (splitSegs (jsSubstringFrom raw 1)) []
    (by intro x hx; cases hx) hslash
  have hne : urlPathSegments (splitSegs (jsSubstringFrom raw 1)) [] ≠ [] :=
    urlPathSegments_ne_nil _ _ (splitSegs_ne_nil _)
  obtain ⟨a, rest, hcons⟩ := List.exists_cons_of_ne_nil hne
  rw [hcons] at hout
  unfold resolvedFor urlPathname
  rw [hcons, splitSegs_renderPath a rest
    (hout a (List.mem_cons_self _ _)).2
    (fun x hx => (hout x (List.mem_cons_of_mem _ hx)).2)]
  rw [normalizeSegs_append_no_dotdot assetsDir (a :: rest) (fun x hx => (hout x hx).1)]
  rw [hnorm]
  exact List.prefix_append _ _

/-- C8: for every GET request outside the fixed endpoints, once `new URL`
has removed the dot segments from the request path (server.ts:2243), the
resolved filesystem location always lies *inside* the resource root (first
conjunct, over an arbitrary raw request target — so the claimed
outside-root-gets-403 case never arises and, in particular, no file outside
the root is ever served); a request resolving inside the root that matches
no existing file answers `404` (second conjunct); and every file the branch
does serve lies under the root (third conjunct).  `hnorm` states that the
configured root is an already-resolved absolute path, which
`path.resolve(ASSETS_DIR)` guarantees. -/
theorem static_request_confined
    (files : List (List String)) (assetsDir : List String)
    (rawAny pMiss pServe : String) (served : List String)
    (hnorm : normalizeSegs assetsDir = assetsDir)
    (hmiss : resolvedFor assetsDir (urlPathname pMiss) ∉ files)
    (hserve : staticRequest files assetsDir pServe = .serve served) :
    assetsDir <+: resolvedFor assetsDir (urlPathname rawAny) ∧
    staticRequest files assetsDir pMiss = .notFoundResp ∧
    assetsDir <+: served := by
  refine ⟨resolvedFor_urlPathname_inside assetsDir rawAny hnorm, ?_, ?_⟩
  · obtain ⟨t, ht⟩ := resolvedFor_urlPathname_inside assetsDir pMiss hnorm
    have hpass : jsStartsWith (renderPath (resolvedFor assetsDir (urlPathname pMiss)))
        (renderPath assetsDir) = true := by
      rw [← ht]
      exact jsStartsWith_renderPath_append assetsDir t
    simp [staticRequest, staticBranch, hpass, hmiss]
  · have hpre := resolvedFor_urlPathname_inside assetsDir pServe hnorm
    simp only [staticRequest, staticBranch] at hserve
    split_ifs at hserve with hchk hmem
    · simp only [StaticResponse.serve.injEq] at hserve
      subst hserve
      exact hpre

/-- Concrete instantiation of `static_request_confined` over the root
`/srv/assets` holding one file `w.html`: the raw target
`/../assetsX/f.html` (the dot-segment escape attempt) resolves to
`/srv/assets/assetsX/f.html`, inside the root; `/missing.html` resolves
inside but hits no file and gets `404`; `/w.html` is served and its path
lies under the root. -/
theorem static_request_confined_witness :
    ["srv", "assets"] <+:
      resolvedFor ["srv", "assets"] (urlPathname "/../assetsX/f.html") ∧
    staticRequest [["srv", "assets", "w.html"]] ["srv", "assets"] "/missing.html" =
      .notFoundResp ∧
    ["srv", "assets"] <+: ["srv", "assets", "w.html"] :=
  static_request_confined [["srv", "assets", "w.html"]] ["srv", "assets"]
    "/../assetsX/f.html" "/missing.html" "/w.html" ["srv", "assets", "w.html"]
    (by decide) (by decide) (by decide)

end AirtableMcp
